import Mathlib

/-!
Verification of the ParkTime audit / authorization / session core.

The Python source is shallowly embedded: SQLAlchemy rows become Lean
structures, the database session becomes explicit lists of rows threaded
through each operation, timestamps are integer microsecond counts
(Python `datetime` resolution), and Python exceptions become `Except` /
paired return values.  Definitions follow the corresponding functions in
`app/services/audit.py`, `app/services/auth.py`,
`app/services/time_entry.py` and `app/dependencies.py` clause by clause.
-/

namespace ParkTime

/-! ## Data model (rows of the relevant tables) -/

/-- Role strings stored in `employees.role`; the code compares them with
the literals "employee", "manager", "admin". -/
inductive Role
  | employee
  | manager
  | admin
deriving DecidableEq, Repr

/-- Row of the `employees` table, restricted to the columns the audited
services read (`employee_id`, `username`, `password_hash`, `role`,
`manager_id`, `is_active`). -/
structure EmployeeRow where
  employee_id : Nat
  username : String
  password_hash : Option String
  role : Role
  manager_id : Option Nat
  is_active : Bool
deriving DecidableEq, Repr

/-- Row of the `user_sessions` table (model in
`app/models/user_session.py`).  Timestamps are microsecond counts. -/
structure SessionRow where
  session_id : Nat
  employee_id : Nat
  session_token : String
  expires_at : Int
  is_active : Bool
  created_at : Int
  last_activity_at : Option Int
  logged_out_at : Option Int
deriving DecidableEq, Repr

/-- Row of the `work_codes` table, restricted to the columns
`TimeEntryService` reads. -/
structure WorkCodeRow where
  work_code_id : Nat
  is_active : Bool
deriving DecidableEq, Repr

/-- The database state threaded through the auth service. -/
structure DB where
  employees : List EmployeeRow
  sessions : List SessionRow
deriving DecidableEq, Repr

/-! ## State capture and diff engine (`app/services/audit.py`) -/

/-- Python values that can sit in a mapped column, as discriminated by
`AuditService._serialize_value`: `None`, `datetime`, `date`, `Decimal`,
`int` / `float` / `str` / `bool`, and anything else (rendered via
`str(value)`).  `datetime` and `date` carry microsecond / day counts;
`Decimal` and `float` are modelled by rationals. -/
inductive PyVal
  | vNone
  | vBool (b : Bool)
  | vInt (n : Int)
  | vFloat (q : Rat)
  | vStr (s : String)
  | vDatetime (t : Int)
  | vDate (d : Int)
  | vDecimal (q : Rat)
  | vOther (s : String)
deriving DecidableEq, Repr

/-- JSON-serializable values produced by `_serialize_value`. -/
inductive AuditVal
  | aNull
  | aBool (b : Bool)
  | aInt (n : Int)
  | aFloat (q : Rat)
  | aStr (s : String)
deriving DecidableEq, Repr

/-- Stand-in for `datetime.isoformat()`: an injective rendering of the
microsecond timestamp (the exact string shape is irrelevant to the
claims; only determinism and injectivity matter). -/
def isoDatetime (t : Int) : String :=
  "datetime:" ++ toString t

/-- Stand-in for `date.isoformat()`. -/
def isoDate (d : Int) : String :=
  "date:" ++ toString d

/-- `AuditService._serialize_value`, branch for branch: `None` passes as
null, `datetime` / `date` become their ISO strings, `Decimal` becomes a
float, `int` / `float` / `str` / `bool` pass through, and any other
value is rendered with `str`. -/
def serializeValue : PyVal → AuditVal
  | PyVal.vNone => AuditVal.aNull
  | PyVal.vDatetime t => AuditVal.aStr (isoDatetime t)
  | PyVal.vDate d => AuditVal.aStr (isoDate d)
  | PyVal.vDecimal q => AuditVal.aFloat q
  | PyVal.vInt n => AuditVal.aInt n
  | PyVal.vFloat q => AuditVal.aFloat q
  | PyVal.vStr s => AuditVal.aStr s
  | PyVal.vBool b => AuditVal.aBool b
  | PyVal.vOther s => AuditVal.aStr s

/-- A snapshot: Python dict from column name to serialized value
(`capture_state`'s return type), kept in mapper-column order. -/
abbrev Snapshot := List (String × AuditVal)

/-- Python `dict.get(key)`: the stored value, or — when the key is
absent — Python `None`, which is the very value a stored null
serializes to.  The conflation of "absent" with "stored null" is the
source's own behaviour and is preserved here. -/
def dictGet (s : Snapshot) (k : String) : AuditVal :=
  match s.find? (fun kv => kv.1 == k) with
  | Option.none => AuditVal.aNull
  | some kv => kv.2

/-- The key list of a snapshot (Python `dict.keys()`). -/
def listKeys (s : Snapshot) : List String :=
  s.map Prod.fst

/-- A model instance as the audit service sees it: its `__tablename__`,
its primary key value (`_get_primary_key`), and its mapped columns with
their current raw values, in mapper order. -/
structure DBRow where
  table_name : String
  record_id : Int
  columns : List (String × PyVal)
deriving DecidableEq, Repr

/-- `AuditService.AUDITED_TABLES`. -/
def AUDITED_TABLES : List String :=
  ["time_entries", "employees", "work_codes", "business_rules"]

/-- `AuditService.EXCLUDED_FIELDS`. -/
def EXCLUDED_FIELDS : List String :=
  ["password_hash"]

/-- `AuditService.capture_state`: walk the mapped columns, skip the
excluded fields, serialize each remaining value. -/
def captureState (row : DBRow) : Snapshot :=
  (row.columns.filter (fun kv => !(EXCLUDED_FIELDS.contains kv.1))).map
    (fun kv => (kv.1, serializeValue kv.2))

/-- `AuditService._diff_states`: iterate over the union of the two key
sets and collect every key whose looked-up values differ.  (Python
iterates a `set`; the iteration order is immaterial to the claims, which
are about the result as a set of field names.) -/
def diffStates (old_state new_state : Snapshot) : List String :=
  ((listKeys old_state ++ listKeys new_state).dedup).filter
    (fun k => decide (dictGet old_state k ≠ dictGet new_state k))

/-- Identity of the `AuditService` instance: `performed_by`,
`ip_address` and default `context` captured at construction. -/
structure AuditServiceCfg where
  performed_by : Nat
  ip_address : Option String
  context : Option String
deriving DecidableEq, Repr

/-- Row of the `audit_log` table.  `old_values` / `new_values` are
modelled structurally (the source stores `json.dumps` of these dicts,
an injective encoding); `changed_fields` keeps the comma-joined string
the source stores. -/
structure AuditLog where
  table_name : String
  record_id : Int
  action : String
  changed_fields : Option String
  old_values : Option Snapshot
  new_values : Option Snapshot
  performed_by : Nat
  ip_address : Option String
  context : Option String
deriving DecidableEq, Repr

/-- Python truthiness filter used by `create_audit_entry`
(`json.dumps(old_values) if old_values else None`): an absent or empty
dict is stored as NULL. -/
def truthyDict : Option Snapshot → Option Snapshot
  | Option.none => Option.none
  | some s => if s = [] then Option.none else some s

/-- `",".join(changed_fields) if changed_fields else None`. -/
def truthyFields : Option (List String) → Option String
  | Option.none => Option.none
  | some l => if l = [] then Option.none else some (String.intercalate "," l)

/-- `create_audit_entry` in `app/models/audit_log.py`. -/
def createAuditEntry (table_name : String) (record_id : Int) (action : String)
    (performed_by : Nat) (old_values new_values : Option Snapshot)
    (changed_fields : Option (List String)) (ip_address context : Option String) :
    AuditLog :=
  { table_name := table_name
    record_id := record_id
    action := action
    changed_fields := truthyFields changed_fields
    old_values := truthyDict old_values
    new_values := truthyDict new_values
    performed_by := performed_by
    ip_address := ip_address
    context := context }

/-- `context or self.context` (Python `or` on optional strings; an empty
override also falls back, matching truthiness). -/
def contextOr (override : Option String) (dflt : Option String) : Option String :=
  match override with
  | Option.none => dflt
  | some c => if c = "" then dflt else some c

/-- `AuditService.log_insert`: no-op for non-audited tables, otherwise
capture the new state and append an INSERT entry to the session.
Returns the optional entry and the session's audit-log list. -/
def logInsert (svc : AuditServiceCfg) (row : DBRow) (ctx : Option String)
    (logs : List AuditLog) : Option AuditLog × List AuditLog :=
  if AUDITED_TABLES.contains row.table_name then
    let entry := createAuditEntry row.table_name row.record_id "INSERT"
      svc.performed_by Option.none (some (captureState row)) Option.none
      svc.ip_address (contextOr ctx svc.context)
    (some entry, logs ++ [entry])
  else
    (Option.none, logs)

/-- `AuditService.log_update`: no-op for non-audited tables; captures the
new state, diffs it against the caller-captured old state, suppresses the
entry entirely when nothing changed. -/
def logUpdate (svc : AuditServiceCfg) (row : DBRow) (old_state : Snapshot)
    (ctx : Option String) (logs : List AuditLog) : Option AuditLog × List AuditLog :=
  if AUDITED_TABLES.contains row.table_name then
    let new_state := captureState row
    let changed_fields := diffStates old_state new_state
    if changed_fields = [] then
      (Option.none, logs)
    else
      let entry := createAuditEntry row.table_name row.record_id "UPDATE"
        svc.performed_by (some old_state) (some new_state) (some changed_fields)
        svc.ip_address (contextOr ctx svc.context)
      (some entry, logs ++ [entry])
  else
    (Option.none, logs)

/-- `AuditService.log_delete`. -/
def logDelete (svc : AuditServiceCfg) (row : DBRow) (ctx : Option String)
    (logs : List AuditLog) : Option AuditLog × List AuditLog :=
  if AUDITED_TABLES.contains row.table_name then
    let entry := createAuditEntry row.table_name row.record_id "DELETE"
      svc.performed_by (some (captureState row)) Option.none Option.none
      svc.ip_address (contextOr ctx svc.context)
    (some entry, logs ++ [entry])
  else
    (Option.none, logs)

/-- `AuditService.log_restore`. -/
def logRestore (svc : AuditServiceCfg) (row : DBRow) (ctx : Option String)
    (logs : List AuditLog) : Option AuditLog × List AuditLog :=
  if AUDITED_TABLES.contains row.table_name then
    let entry := createAuditEntry row.table_name row.record_id "RESTORE"
      svc.performed_by Option.none (some (captureState row)) Option.none
      svc.ip_address (contextOr ctx svc.context)
    (some entry, logs ++ [entry])
  else
    (Option.none, logs)

/-! ## Authentication / session service (`app/services/auth.py`) -/

/-- Abstract interface of the passlib `CryptContext`: `hash` always
succeeds; `verify` may raise (malformed or non-bcrypt stored hash),
modelled by `Except`. -/
structure PwdCtx where
  hash : String → String
  verify : String → String → Except String Bool

/-- `AuthService.verify_password`: `pwd_context.verify` wrapped in
`try/except` returning `False` on any error.  A NULL stored hash makes
passlib raise, hence the `Option.none` branch also yields `false`. -/
def verifyPassword (ctx : PwdCtx) (plain_password : String)
    (hashed_password : Option String) : Bool :=
  match hashed_password with
  | Option.none => false
  | some h =>
    match ctx.verify plain_password h with
    | Except.ok b => b
    | Except.error _ => false

/-- Python truthiness of the nullable `password_hash` column, as tested
by `if not employee.password_hash`: NULL and the empty string are falsy. -/
def pwdHashFalsy : Option String → Bool
  | Option.none => true
  | some h => h == ""

/-- `AuthService.authenticate`: look the user up by username, then check
active flag, presence of a password, and the password itself. -/
def authenticate (ctx : PwdCtx) (db : DB) (username password : String) :
    Except String EmployeeRow :=
  match db.employees.find? (fun e => e.username == username) with
  | Option.none => Except.error "Invalid username or password"
  | some employee =>
    if !employee.is_active then
      Except.error "Account is inactive"
    else if pwdHashFalsy employee.password_hash then
      Except.error "Account has no password set"
    else if !(verifyPassword ctx password employee.password_hash) then
      Except.error "Invalid username or password"
    else
      Except.ok employee

/-- `AuthService.validate_session`: look up an active session by token
(`scalar_one_or_none` over the unique token column, modelled as the
first match); if it is expired, deactivate it and return `None`; then
look up an active employee for it — missing or inactive employee leaves
the row untouched; otherwise touch `last_activity_at` and return the
employee.  Row mutation through the ORM object is modelled as an update
of the row with the matching primary key. -/
def validateSession (db : DB) (session_token : String) (now : Int) :
    Option EmployeeRow × DB :=
  match db.sessions.find? (fun s => s.session_token == session_token && s.is_active) with
  | Option.none => (Option.none, db)
  | some s =>
    if s.expires_at < now then
      (Option.none,
        { db with sessions := db.sessions.map (fun r =>
            if r.session_id == s.session_id then { r with is_active := false } else r) })
    else
      match db.employees.find? (fun e => e.employee_id == s.employee_id && e.is_active) with
      | Option.none => (Option.none, db)
      | some employee =>
        (some employee,
          { db with sessions := db.sessions.map (fun r =>
              if r.session_id == s.session_id then { r with last_activity_at := some now } else r) })

/-- `AuthService.logout`: look the session up by token alone (no
`is_active` filter); absent token returns `False`, otherwise the row is
marked inactive with `logged_out_at` set and `True` is returned. -/
def logout (db : DB) (session_token : String) (now : Int) : Bool × DB :=
  match db.sessions.find? (fun s => s.session_token == session_token) with
  | Option.none => (false, db)
  | some s =>
    (true,
      { db with sessions := db.sessions.map (fun r =>
          if r.session_id == s.session_id then
            { r with is_active := false, logged_out_at := some now }
          else r) })

/-- `AuthService.logout_all_sessions`: select the employee's active
sessions, deactivate each, and return how many were selected. -/
def logoutAllSessions (db : DB) (employee_id : Nat) (now : Int) : Nat × DB :=
  let selected := db.sessions.filter (fun s => s.employee_id == employee_id && s.is_active)
  (selected.length,
    { db with sessions := db.sessions.map (fun s =>
        if s.employee_id == employee_id && s.is_active then
          { s with is_active := false, logged_out_at := some now }
        else s) })

/-- `AuthService.set_password`: overwrite the employee's stored hash
with the hash of the new password. -/
def setPassword (ctx : PwdCtx) (db : DB) (employee_id : Nat) (new_password : String) : DB :=
  { db with employees := db.employees.map (fun e =>
      if e.employee_id == employee_id then
        { e with password_hash := some (ctx.hash new_password) }
      else e) }

/-- `AuthService.change_password`: verify the current password against
the stored hash, raising `AuthenticationError` on mismatch, otherwise
delegate to `set_password`.  The commented-out cascade revoke in the
source is absent, so sessions are never touched. -/
def changePassword (ctx : PwdCtx) (db : DB) (employee : EmployeeRow)
    (current_password new_password : String) : Except String Unit × DB :=
  if !(verifyPassword ctx current_password employee.password_hash) then
    (Except.error "Current password is incorrect", db)
  else
    (Except.ok (), setPassword ctx db employee.employee_id new_password)

/-! ## Authorization policy

The `Employee` model itself is not among the sources (its
`app/models/employee.py` slot holds admin-route code instead), so
`Employee.can_view_employee` is reconstructed from the specification. -/

/-- Modelled from the spec: `Employee.can_view_employee`, the body of
the missing `Employee` model, per spec §4.3 — admin sees anyone; anyone
sees themselves; a manager sees exactly the actors whose `manager`
reference equals the manager's own id (one level, no recursion). -/
def canViewEmployee (employees : List EmployeeRow) (actor : EmployeeRow)
    (target_employee_id : Nat) : Bool :=
  actor.role == Role.admin ||
  actor.employee_id == target_employee_id ||
  (actor.role == Role.manager &&
    employees.any (fun e =>
      e.employee_id == target_employee_id && e.manager_id == some actor.employee_id))

/-- `can_edit_employee_time` in `app/dependencies.py`: a direct
delegation to `Employee.can_view_employee`. -/
def canEditEmployeeTime (employees : List EmployeeRow) (target_employee_id : Nat)
    (user : EmployeeRow) : Bool :=
  canViewEmployee employees user target_employee_id

/-! ## Time entry validation (`app/services/time_entry.py`) -/

/-- `(end_time - start_time).total_seconds() / 3600` over microsecond
timestamps, computed exactly in ℚ.  (The source uses binary floats; at
microsecond granularity the two divisions carry relative error below
2⁻⁵² while the smallest nonzero distance of the exact quotient from the
compared bounds 24 and 0.25 is 1 µs / 3600 s ≈ 2.8·10⁻¹⁰, so the float
comparisons agree with the exact ones on every representable input.) -/
def durationHours (start_time end_time : Int) : Rat :=
  (((end_time - start_time : Int) : Rat) / 1000000) / 3600

/-- `TimeEntryService._validate_times`. -/
def validateTimes (start_time end_time : Int) : Except String Unit :=
  if end_time ≤ start_time then
    Except.error "End time must be after start time"
  else if durationHours start_time end_time > 24 then
    Except.error "Entry duration cannot exceed 24 hours"
  else if durationHours start_time end_time < (1 : Rat) / 4 then
    Except.error "Entry duration must be at least 15 minutes"
  else
    Except.ok ()

/-- `TimeEntryService._validate_employee_exists`. -/
def validateEmployeeExists (employees : List EmployeeRow) (employee_id : Nat) :
    Except String Unit :=
  if employees.any (fun e => e.employee_id == employee_id && e.is_active) then
    Except.ok ()
  else
    Except.error ("Employee " ++ toString employee_id ++ " not found or inactive")

/-- `TimeEntryService._validate_work_code_exists`. -/
def validateWorkCodeExists (work_codes : List WorkCodeRow) (work_code_id : Nat) :
    Except String Unit :=
  if work_codes.any (fun c => c.work_code_id == work_code_id && c.is_active) then
    Except.ok ()
  else
    Except.error ("Work code " ++ toString work_code_id ++ " not found or inactive")

/-- The validation prefix of `TimeEntryService.create_entry`: the three
checks run in source order, the first failure aborting the operation. -/
def createEntryChecks (employees : List EmployeeRow) (work_codes : List WorkCodeRow)
    (employee_id work_code_id : Nat) (start_time end_time : Int) :
    Except String Unit :=
  match validateEmployeeExists employees employee_id with
  | Except.error msg => Except.error msg
  | Except.ok _ =>
    match validateWorkCodeExists work_codes work_code_id with
    | Except.error msg => Except.error msg
    | Except.ok _ => validateTimes start_time end_time

/-! ## Derived predicates and concrete fixtures used by the theorems -/

/-- A snapshot mentions none of the excluded fields. -/
def snapshotOmitsExcluded (s : Snapshot) : Prop :=
  ∀ f ∈ EXCLUDED_FIELDS, f ∉ listKeys s

/-- An audit-log row whose stored value dicts mention no excluded field. -/
def logOmitsExcluded (e : AuditLog) : Prop :=
  (∀ s, e.old_values = some s → snapshotOmitsExcluded s) ∧
  (∀ s, e.new_values = some s → snapshotOmitsExcluded s)

/-- Three-level management chain: `mgrTop` manages `mgrMid`, who manages
`reportLeaf` (the grandchild of `mgrTop`). -/
def mgrTop : EmployeeRow :=
  ⟨1, "m", Option.none, Role.manager, Option.none, true⟩

/-- Middle manager, direct report of `mgrTop`. -/
def mgrMid : EmployeeRow :=
  ⟨2, "r", Option.none, Role.manager, some 1, true⟩

/-- Leaf employee, direct report of `mgrMid`. -/
def reportLeaf : EmployeeRow :=
  ⟨3, "g", Option.none, Role.employee, some 2, true⟩

/-- The three-employee org chart. -/
def orgChart : List EmployeeRow :=
  [mgrTop, mgrMid, reportLeaf]

/-- Audit-service identity used in witnesses. -/
def svcW : AuditServiceCfg :=
  ⟨1, Option.none, Option.none⟩

/-- A concrete audited time-entry row. -/
def rowW : DBRow :=
  ⟨"time_entries", 7, [("hours", PyVal.vDecimal 8), ("notes", PyVal.vNone)]⟩

/-- A concrete employee with a stored password hash. -/
def empW : EmployeeRow :=
  ⟨5, "alice", some "hash", Role.employee, Option.none, true⟩

/-- A concrete active session for `empW`, expiring at time 100. -/
def sessW : SessionRow :=
  ⟨10, 5, "tok", 100, true, 0, Option.none, Option.none⟩

/-- Database with one active employee and one active session. -/
def dbW : DB :=
  ⟨[empW], [sessW]⟩

/-- Database where `empW` is deactivated but the session survives. -/
def dbInactiveEmp : DB :=
  ⟨[⟨5, "alice", some "hash", Role.employee, Option.none, false⟩], [sessW]⟩

/-- A session that is already inactive. -/
def inactiveSess : SessionRow :=
  ⟨11, 5, "tok2", 100, false, 0, Option.none, Option.none⟩

/-- Database holding only the already-inactive session. -/
def dbInactiveSess : DB :=
  ⟨[], [inactiveSess]⟩

/-- Password context whose stored hashes are `plain ++ "#"` (verification
succeeds without raising). -/
def ctxOkW : PwdCtx :=
  ⟨fun s => s ++ "#", fun p h => Except.ok (h == p ++ "#")⟩

/-- Password context whose underlying verifier always raises (a
malformed / non-bcrypt stored hash). -/
def ctxErrW : PwdCtx :=
  ⟨fun s => s, fun _ _ => Except.error "hash could not be identified"⟩

/-! ## Helper lemmas -/

/-- A key absent from a snapshot's key list looks up to null. -/
theorem dictGet_eq_null_of_not_mem {s : Snapshot} {k : String}
    (h : k ∉ listKeys s) : dictGet s k = AuditVal.aNull := by
  unfold dictGet
  rw [List.find?_eq_none.mpr]
  intro kv hkv hbeq
  exact h (List.mem_map.mpr ⟨kv, hkv, by simpa using hbeq⟩)

/-- Membership in `_diff_states` is exactly disagreement of the two
lookups. -/
theorem mem_diffStates {old_state new_state : Snapshot} {k : String} :
    k ∈ diffStates old_state new_state ↔
      dictGet old_state k ≠ dictGet new_state k := by
  unfold diffStates
  rw [List.mem_filter]
  simp only [List.mem_dedup, List.mem_append, decide_eq_true_eq]
  constructor
  · exact fun h => h.2
  · intro h
    refine ⟨?_, h⟩
    by_contra hk
    push_neg at hk
    rw [dictGet_eq_null_of_not_mem hk.1, dictGet_eq_null_of_not_mem hk.2] at h
    exact h rfl

/-- `_diff_states` of a snapshot against itself is empty. -/
theorem diffStates_self (s : Snapshot) : diffStates s s = [] := by
  unfold diffStates
  apply List.filter_eq_nil_iff.mpr
  intro a _
  simp

/-- `find?` returns the designated element when it satisfies the
predicate and is the only element of the list to do so. -/
theorem find?_eq_some_of_unique {α : Type} {p : α → Bool} {l : List α} {a : α}
    (ha : a ∈ l) (hpa : p a = true)
    (huniq : ∀ x ∈ l, p x = true → x = a) : l.find? p = some a := by
  induction l with
  | nil => cases ha
  | cons hd tl ih =>
    by_cases hp : p hd
    · rw [List.find?_cons_of_pos _ hp]
      exact congrArg some (huniq hd (List.mem_cons_self hd tl) hp)
    · rw [List.find?_cons_of_neg _ hp]
      rcases List.mem_cons.mp ha with rfl | hmem
      · exact absurd hpa hp
      · exact ih hmem fun x hx hpx => huniq x (List.mem_cons_of_mem _ hx) hpx

/-- `capture_state` never emits an excluded field. -/
theorem captureState_omitsExcluded (row : DBRow) :
    snapshotOmitsExcluded (captureState row) := by
  intro f hf hmem
  simp only [captureState, listKeys, List.map_map, List.mem_map, Function.comp,
    List.mem_filter, Bool.not_eq_true'] at hmem
  obtain ⟨kv, ⟨_, hno⟩, hfst⟩ := hmem
  rw [hfst] at hno
  exact absurd hf (by simpa using hno)

/-! ## Claim theorems -/

/-- Counterexample to claim C3 as stated: `_diff_states` compares with
`dict.get`, which reads an absent key as `None` — the very value a
stored null serializes to.  The field "deleted_at" is present in the new
snapshot and absent from the old one, yet the diff is empty, so a field
present in one snapshot but not the other is not always included. -/
theorem claimC3_counterexample :
    "deleted_at" ∈ listKeys [("deleted_at", AuditVal.aNull)] ∧
    "deleted_at" ∉ listKeys ([] : Snapshot) ∧
    diffStates ([] : Snapshot) [("deleted_at", AuditVal.aNull)] = [] := by
  decide

/-- Claim C3 (amended): `_diff_states` returns exactly the set of field
names whose values differ under `dict.get` lookup, where an absent field
reads as null — so a field present in only one snapshot is included
exactly when its stored value is not null; `diff(S, S)` is empty; and
when the lookups of two snapshots differ only at a single field `f`,
the diff is exactly `{f}`. -/
theorem claimC3_amended_diff_characterization :
    (∀ old_state new_state : Snapshot, ∀ k : String,
        k ∈ diffStates old_state new_state ↔
          dictGet old_state k ≠ dictGet new_state k) ∧
    (∀ s : Snapshot, diffStates s s = []) ∧
    (∀ s1 s2 : Snapshot, ∀ f : String,
        dictGet s1 f ≠ dictGet s2 f →
        (∀ k ∈ listKeys s1 ++ listKeys s2, k ≠ f → dictGet s1 k = dictGet s2 k) →
        ∀ k : String, k ∈ diffStates s1 s2 ↔ k = f) := by
  refine ⟨fun _ _ _ => mem_diffStates, diffStates_self, ?_⟩
  intro s1 s2 f hf hoth k
  rw [mem_diffStates]
  constructor
  · intro hk
    by_contra hkf
    rcases List.mem_append.mp ((List.mem_filter.mp
      ((@mem_diffStates s1 s2 k).mpr hk)).1 |> List.mem_dedup.mp)
      with h1 | h2
    · exact hk (hoth k (List.mem_append.mpr (Or.inl h1)) hkf)
    · exact hk (hoth k (List.mem_append.mpr (Or.inr h2)) hkf)
  · intro hk
    rw [hk]
    exact hf

/-- Witness for C3 (amended) at concrete snapshots that differ only in
"hours". -/
theorem claimC3_witness :
    "hours" ∈ diffStates
      [("hours", AuditVal.aFloat 8), ("notes", AuditVal.aNull)]
      [("hours", AuditVal.aFloat 9), ("notes", AuditVal.aNull)] :=
  (claimC3_amended_diff_characterization.2.2
    [("hours", AuditVal.aFloat 8), ("notes", AuditVal.aNull)]
    [("hours", AuditVal.aFloat 9), ("notes", AuditVal.aNull)]
    "hours" (by decide) (by decide) "hours").mpr rfl

/-- Claim C2: `AuditService.log_update` suppresses no-op updates — when
the diff of the caller-captured old state against the freshly captured
state is empty, it returns `None` and appends nothing to the session. -/
theorem claimC2_noop_update_suppressed
    (svc : AuditServiceCfg) (row : DBRow) (old_state : Snapshot)
    (ctx : Option String) (logs : List AuditLog)
    (h : diffStates old_state (captureState row) = []) :
    logUpdate svc row old_state ctx logs = (Option.none, logs) := by
  unfold logUpdate
  by_cases haud : AUDITED_TABLES.contains row.table_name
  · simp [haud, h]
  · simp [haud, h]

/-- Witness for C2: updating `rowW` with its own captured state. -/
theorem claimC2_witness :
    logUpdate svcW rowW (captureState rowW) Option.none [] = (Option.none, []) :=
  claimC2_noop_update_suppressed svcW rowW (captureState rowW) Option.none []
    (diffStates_self (captureState rowW))

/-- Claim C6: `capture_state` never includes an excluded field
(`password_hash`), and consequently no audit entry produced by the four
log operations carries an excluded field in `old_values` or
`new_values` (for `log_update`, with the old state captured by
`capture_state` as the service prescribes). -/
theorem claimC6_excluded_fields_never_logged :
    (∀ row : DBRow, ∀ f ∈ EXCLUDED_FIELDS, f ∉ listKeys (captureState row)) ∧
    (∀ svc row ctx logs e, (logInsert svc row ctx logs).1 = some e →
        logOmitsExcluded e) ∧
    (∀ svc row row₀ ctx logs e,
        (logUpdate svc row (captureState row₀) ctx logs).1 = some e →
        logOmitsExcluded e) ∧
    (∀ svc row ctx logs e, (logDelete svc row ctx logs).1 = some e →
        logOmitsExcluded e) ∧
    (∀ svc row ctx logs e, (logRestore svc row ctx logs).1 = some e →
        logOmitsExcluded e) := by
  have hsnap : ∀ opt (row : DBRow), truthyDict opt = some (captureState row) ∨
      opt = some (captureState row) → True := fun _ _ _ => trivial
  have htruthy : ∀ (row : DBRow) (s : Snapshot),
      truthyDict (some (captureState row)) = some s → snapshotOmitsExcluded s := by
    intro row s hs
    simp only [truthyDict] at hs
    by_cases hnil : captureState row = []
    · simp [hnil] at hs
    · rw [if_neg hnil] at hs
      cases hs
      exact captureState_omitsExcluded row
  have hnone : ∀ s : Snapshot, truthyDict Option.none = some s →
      snapshotOmitsExcluded s := by
    intro s hs
    simp [truthyDict] at hs
  refine ⟨fun row => captureState_omitsExcluded row, ?_, ?_, ?_, ?_⟩
  · intro svc row ctx logs e he
    unfold logInsert at he
    by_cases haud : AUDITED_TABLES.contains row.table_name
    · rw [if_pos haud] at he
      cases he
      exact ⟨hnone, htruthy row⟩
    · rw [if_neg haud] at he
      cases he
  · intro svc row row₀ ctx logs e he
    unfold logUpdate at he
    by_cases haud : AUDITED_TABLES.contains row.table_name
    · rw [if_pos haud] at he
      by_cases hch : diffStates (captureState row₀) (captureState row) = []
      · simp only [hch, if_pos] at he
        cases he
      · simp only [hch, if_neg, reduceIte] at he
        cases he
        exact ⟨htruthy row₀, htruthy row⟩
    · rw [if_neg haud] at he
      cases he
  · intro svc row ctx logs e he
    unfold logDelete at he
    by_cases haud : AUDITED_TABLES.contains row.table_name
    · rw [if_pos haud] at he
      cases he
      exact ⟨htruthy row, hnone⟩
    · rw [if_neg haud] at he
      cases he
  · intro svc row ctx logs e he
    unfold logRestore at he
    by_cases haud : AUDITED_TABLES.contains row.table_name
    · rw [if_pos haud] at he
      cases he
      exact ⟨hnone, htruthy row⟩
    · rw [if_neg haud] at he
      cases he

/-- Witness for C6: `password_hash` is absent from a concrete capture of
an employee row that carries it as a column. -/
theorem claimC6_witness :
    "password_hash" ∉ listKeys (captureState
      ⟨"employees", 5, [("employee_id", PyVal.vInt 5),
        ("password_hash", PyVal.vStr "secret")]⟩) :=
  claimC6_excluded_fields_never_logged.1
    ⟨"employees", 5, [("employee_id", PyVal.vInt 5),
      ("password_hash", PyVal.vStr "secret")]⟩
    "password_hash" (by decide)

/-- Claim C4: validating the token of an active but expired session
returns `None` and flips exactly that session's `is_active` to false;
any later validation of the same token returns `None` and leaves the
state untouched.  Token uniqueness (a schema invariant) and primary-key
uniqueness (under which row mutation is faithfully modelled) are the
hypotheses. -/
theorem claimC4_expired_session_flips_once
    (db : DB) (token : String) (now now' : Int) (s : SessionRow)
    (_hids : (db.sessions.map SessionRow.session_id).Nodup)
    (huniq : ∀ x ∈ db.sessions, x.session_token = token → x = s)
    (hmem : s ∈ db.sessions) (htok : s.session_token = token)
    (hact : s.is_active = true) (hexp : s.expires_at < now) :
    validateSession db token now =
      (Option.none,
        { db with sessions := db.sessions.map (fun r =>
            if r.session_id == s.session_id then { r with is_active := false } else r) }) ∧
    validateSession (validateSession db token now).2 token now' =
      (Option.none, (validateSession db token now).2) := by
  have hfind : db.sessions.find?
      (fun r => r.session_token == token && r.is_active) = some s :=
    find?_eq_some_of_unique hmem (by simp [htok, hact])
      (fun x hx hpx => huniq x hx
        (by simp only [Bool.and_eq_true, beq_iff_eq] at hpx; exact hpx.1))
  have h1 : validateSession db token now =
      (Option.none,
        { db with sessions := db.sessions.map (fun r =>
            if r.session_id == s.session_id then { r with is_active := false } else r) }) := by
    simp only [validateSession, hfind]
    rw [if_pos hexp]
  have hnone : (db.sessions.map (fun r =>
      if r.session_id == s.session_id then { r with is_active := false } else r)).find?
      (fun r => r.session_token == token && r.is_active) = Option.none := by
    apply List.find?_eq_none.mpr
    intro x hx
    rw [List.mem_map] at hx
    obtain ⟨y, hy, rfl⟩ := hx
    by_cases hid : (y.session_id == s.session_id) = true
    · rw [if_pos hid]
      simp
    · rw [if_neg hid]
      simp only [Bool.and_eq_true, beq_iff_eq, not_and]
      intro htk _
      exact absurd (by rw [huniq y hy htk]; simp) hid
  have h2 : ∀ dbx : DB,
      dbx.sessions.find? (fun r => r.session_token == token && r.is_active) =
        Option.none →
      validateSession dbx token now' = (Option.none, dbx) := by
    intro dbx hfx
    simp only [validateSession, hfx]
  refine ⟨h1, ?_⟩
  rw [h1]
  exact h2 _ hnone

/-- Witness for C4: `sessW` expires at 100 and is validated at 200. -/
theorem claimC4_witness :
    validateSession dbW "tok" 200 =
      (Option.none, ⟨[empW], [⟨10, 5, "tok", 100, false, 0, Option.none, Option.none⟩]⟩) ∧
    validateSession (validateSession dbW "tok" 200).2 "tok" 300 =
      (Option.none, (validateSession dbW "tok" 200).2) := by
  have h := claimC4_expired_session_flips_once dbW "tok" 200 300 sessW
    (by decide) (by decide) (by decide) (by decide) (by decide) (by decide)
  exact ⟨by rw [h.1]; decide, h.2⟩

/-- Claim C9: a valid, non-expired session bound to a missing or
inactive employee yields `None` and leaves the database — in particular
the session row — completely unchanged. -/
theorem claimC9_inactive_employee_blocks_without_revoking
    (db : DB) (token : String) (now : Int) (s : SessionRow)
    (hfind : db.sessions.find?
      (fun r => r.session_token == token && r.is_active) = some s)
    (hexp : ¬ s.expires_at < now)
    (hemp : ∀ e ∈ db.employees, e.employee_id = s.employee_id → e.is_active = false) :
    validateSession db token now = (Option.none, db) := by
  have hempnone : db.employees.find?
      (fun e => e.employee_id == s.employee_id && e.is_active) = Option.none := by
    apply List.find?_eq_none.mpr
    intro e he
    simp only [Bool.and_eq_true, beq_iff_eq, not_and]
    intro hid hac
    rw [hemp e he hid] at hac
    cases hac
  simp only [validateSession, hfind, hempnone]
  rw [if_neg hexp]

/-- Witness for C9: `sessW` is active and unexpired at time 50, but its
employee is deactivated in `dbInactiveEmp`. -/
theorem claimC9_witness :
    validateSession dbInactiveEmp "tok" 50 = (Option.none, dbInactiveEmp) :=
  claimC9_inactive_employee_blocks_without_revoking dbInactiveEmp "tok" 50 sessW
    (by decide) (by decide) (by decide)

/-- Counterexample to claim C5 as stated: logging out a session that is
already inactive returns `True`, not `False` — `logout` looks the row up
by token alone, without an `is_active` filter. -/
theorem claimC5_counterexample :
    (logout dbInactiveSess "tok2" 0).1 = true := by decide

/-- Claim C5 (amended): `logout` returns `False` exactly when no session
row with the given token exists at all; on any existing session —
already inactive included — it returns `True` without error; and
`logout_all_sessions` for an employee with no active sessions returns 0. -/
theorem claimC5_amended_logout_semantics :
    (∀ db token now, (logout db token now).1 = false ↔
        db.sessions.find? (fun s => s.session_token == token) = Option.none) ∧
    (∀ db token now (s : SessionRow), s ∈ db.sessions → s.session_token = token →
        (logout db token now).1 = true) ∧
    (∀ db eid now, (∀ s ∈ db.sessions, s.employee_id = eid → s.is_active = false) →
        (logoutAllSessions db eid now).1 = 0) := by
  refine ⟨?_, ?_, ?_⟩
  · intro db token now
    cases h : db.sessions.find? (fun s => s.session_token == token) with
    | none => simp [logout, h]
    | some s => simp [logout, h]
  · intro db token now s hs htk
    cases h : db.sessions.find? (fun x => x.session_token == token) with
    | none =>
      exact absurd (by simp [htk] : (s.session_token == token) = true)
        (by simpa using List.find?_eq_none.mp h s hs)
    | some x => simp [logout, h]
  · intro db eid now hq
    simp only [logoutAllSessions]
    rw [List.length_eq_zero, List.filter_eq_nil_iff]
    intro s hs
    simp only [Bool.and_eq_true, beq_iff_eq, not_and]
    intro hid hac
    rw [hq s hs hid] at hac
    cases hac

/-- Witness for C5 (amended): the lone session of `dbInactiveSess` is
inactive, so `logout_all_sessions` for its employee counts 0. -/
theorem claimC5_amended_witness :
    (logoutAllSessions dbInactiveSess 5 0).1 = 0 :=
  claimC5_amended_logout_semantics.2.2 dbInactiveSess 5 0 (by decide)

/-- Claim C8: `change_password` fails with `AuthenticationError` and an
unchanged database whenever the current password does not verify against
the stored hash, and in every outcome it leaves the session table — and
hence the actor's other sessions — untouched. -/
theorem claimC8_change_password_guard
    (ctx : PwdCtx) (db : DB) (employee : EmployeeRow) (cur npw : String) :
    (verifyPassword ctx cur employee.password_hash = false →
      changePassword ctx db employee cur npw =
        (Except.error "Current password is incorrect", db)) ∧
    (∀ r db', changePassword ctx db employee cur npw = (r, db') →
      db'.sessions = db.sessions) := by
  constructor
  · intro h
    simp [changePassword, h]
  · intro r db' h
    by_cases hv : verifyPassword ctx cur employee.password_hash = true
    · simp only [changePassword, hv, Bool.not_true, Bool.false_eq_true, reduceIte] at h
      injection h with h1 h2
      rw [← h2]
      rfl
    · rw [Bool.not_eq_true] at hv
      simp only [changePassword, hv, Bool.not_false, reduceIte] at h
      injection h with h1 h2
      rw [← h2]

/-- Witness for C8: a verifier that always raises makes the stored
`"hash"` fail to verify, so the password change is rejected and the
database is returned unchanged. -/
theorem claimC8_witness :
    changePassword ctxErrW dbW empW "wrong" "newpw" =
      (Except.error "Current password is incorrect", dbW) :=
  (claimC8_change_password_guard ctxErrW dbW empW "wrong" "newpw").1 (by decide)

/-- Claim C10: `verify_password` swallows every error of the underlying
hash library (and a NULL stored hash) into `false`, so `authenticate`
can only fail with one of its `AuthenticationError` messages, never with
a propagated library error. -/
theorem claimC10_verify_never_raises :
    (∀ ctx p h err, ctx.verify p h = Except.error err →
        verifyPassword ctx p (some h) = false) ∧
    (∀ ctx p, verifyPassword ctx p Option.none = false) ∧
    (∀ ctx db u p err, authenticate ctx db u p = Except.error err →
        err = "Invalid username or password" ∨ err = "Account is inactive" ∨
        err = "Account has no password set") := by
  refine ⟨?_, fun ctx p => rfl, ?_⟩
  · intro ctx p h err he
    simp [verifyPassword, he]
  · intro ctx db u p err hauth
    unfold authenticate at hauth
    split at hauth
    · simp only [Except.error.injEq] at hauth
      exact Or.inl hauth.symm
    · split at hauth
      · simp only [Except.error.injEq] at hauth
        exact Or.inr (Or.inl hauth.symm)
      · split at hauth
        · simp only [Except.error.injEq] at hauth
          exact Or.inr (Or.inr hauth.symm)
        · split at hauth
          · simp only [Except.error.injEq] at hauth
            exact Or.inl hauth.symm
          · simp at hauth

/-- Witness for C10: a raising verifier still yields `false`. -/
theorem claimC10_witness :
    verifyPassword ctxErrW "password" (some "not-a-bcrypt-hash") = false :=
  claimC10_verify_never_raises.1 ctxErrW "password" "not-a-bcrypt-hash"
    "hash could not be identified" rfl

/-- Claim C1: the permission check grants access exactly to admins, to
the target themselves, and to a manager whose id is the target's
`manager` reference — one level only, as the concrete grandchild
scenario shows: `mgrTop` manages `mgrMid` who manages `reportLeaf`, and
`mgrTop` is denied on `reportLeaf`. -/
theorem claimC1_authorization_policy :
    (∀ (employees : List EmployeeRow) (actor : EmployeeRow) (target_id : Nat),
      canEditEmployeeTime employees target_id actor = true ↔
        (actor.role = Role.admin ∨ actor.employee_id = target_id ∨
          (actor.role = Role.manager ∧ ∃ t ∈ employees,
            t.employee_id = target_id ∧ t.manager_id = some actor.employee_id))) ∧
    canEditEmployeeTime orgChart reportLeaf.employee_id mgrTop = false := by
  constructor
  · intro employees actor target_id
    simp [canEditEmployeeTime, canViewEmployee, List.any_eq_true,
      Bool.and_eq_true, Bool.or_eq_true, beq_iff_eq, and_assoc, or_assoc]
  · decide

/-- Claim C7: `_validate_times` accepts exactly the strictly ordered
pairs whose duration lies in [15 minutes, 24 hours], the bounds
themselves included, each rejection carrying the message of the violated
bound; and with valid employee and work code, the `create_entry`
validation prefix fails on the time rule exactly as `_validate_times`
does. -/
theorem claimC7_time_validation :
    (∀ s e : Int, validateTimes s e = Except.ok () ↔
        (s < e ∧ durationHours s e ≤ 24 ∧ (1 : Rat) / 4 ≤ durationHours s e)) ∧
    (∀ s e : Int, e ≤ s →
        validateTimes s e = Except.error "End time must be after start time") ∧
    (∀ s e : Int, s < e → 24 < durationHours s e →
        validateTimes s e = Except.error "Entry duration cannot exceed 24 hours") ∧
    (∀ s e : Int, s < e → durationHours s e < (1 : Rat) / 4 →
        validateTimes s e = Except.error "Entry duration must be at least 15 minutes") ∧
    (validateTimes 0 900000000 = Except.ok ()) ∧
    (validateTimes 0 86400000000 = Except.ok ()) ∧
    (∀ (employees : List EmployeeRow) (work_codes : List WorkCodeRow)
        (eid wid : Nat) (s e : Int),
        employees.any (fun x => x.employee_id == eid && x.is_active) = true →
        work_codes.any (fun c => c.work_code_id == wid && c.is_active) = true →
        (createEntryChecks employees work_codes eid wid s e = Except.ok () ↔
          validateTimes s e = Except.ok ())) := by
  refine ⟨?_, ?_, ?_, ?_, by norm_num [validateTimes, durationHours],
    by norm_num [validateTimes, durationHours], ?_⟩
  · intro s e
    unfold validateTimes
    split_ifs with h1 h2 h3
    · simp only [reduceCtorEq, false_iff, not_and]
      intro hlt
      exact absurd hlt (not_lt.mpr h1)
    · simp only [reduceCtorEq, false_iff, not_and]
      intro _ hle
      exact absurd h2 (not_lt.mpr hle)
    · simp only [reduceCtorEq, false_iff, not_and]
      intro _ _ hge
      exact absurd h3 (not_lt.mpr hge)
    · simp only [true_iff]
      exact ⟨not_le.mp h1, not_lt.mp h2, not_lt.mp h3⟩
  · intro s e h
    unfold validateTimes
    rw [if_pos h]
  · intro s e h hd
    unfold validateTimes
    rw [if_neg (not_le.mpr h), if_pos hd]
  · intro s e h hd
    unfold validateTimes
    rw [if_neg (not_le.mpr h),
      if_neg (not_lt.mpr (le_of_lt (lt_trans hd (by norm_num)))), if_pos hd]
  · intro employees work_codes eid wid s e h1 h2
    simp only [createEntryChecks, validateEmployeeExists, validateWorkCodeExists,
      h1, h2, reduceIte]

/-- Witness for C7: reversed times are rejected with the ordering
message. -/
theorem claimC7_witness :
    validateTimes 10 5 = Except.error "End time must be after start time" :=
  claimC7_time_validation.2.1 10 5 (by decide)

end ParkTime
